import Mathlib

/-!
Verification development for the OneSignal Website SDK alternate-origin
subsystem: candidate-origin derivation, alternate-origin discovery, the
ProxyFrameHost frame controller, the cross-origin message channel, the
proxy-frame command handlers, and the SDK environment classifier.

Definitions are shallow embeddings of the TypeScript sources. Pieces of the
repository that are exercised by its unit tests but whose implementation is
not among the provided source files (the list-building
`getCanonicalSubscriptionUrls`, `discoverAltOrigin`, and the Postmam channel)
are modelled from the specification; each such definition says so in its doc
comment.
-/

namespace OneSignalSDK

/-! ## Build environments and URLs (src/managers/SdkEnvironment.ts) -/

/-- The three build environments, from src/models/BuildEnvironmentKind. -/
inductive BuildEnvironmentKind
  | Development
  | Staging
  | Production
deriving DecidableEq

/-- A browser URL reduced to the components the embedded code manipulates.
Following the browser URL API, `host` includes the port when one is present
(for example "localhost:3001"). -/
structure SimpleURL where
  host : String
  pathname : String
deriving DecidableEq

/-- Shallow embedding of `SdkEnvironment.getOneSignalApiUrl`
(src/managers/SdkEnvironment.ts lines 97 to 106). -/
def SdkEnvironment.getOneSignalApiUrl : BuildEnvironmentKind → SimpleURL
  | BuildEnvironmentKind.Development => { host := "localhost:3001", pathname := "/api/v1/" }
  | BuildEnvironmentKind.Staging => { host := "onesignal-staging.pw", pathname := "/api/v1/" }
  | BuildEnvironmentKind.Production => { host := "onesignal.com", pathname := "/api/v1" }

/-- The configuration fields relevant to candidate-origin derivation, from
the AppConfig usage in src/unnamed/part_002 and the unit test. -/
structure AppConfig where
  subdomain : String
  useLegacyDomain : Bool
deriving DecidableEq

/-- Shallow embedding of `AltOriginManager.getCanonicalSubscriptionUrl`
(src/unnamed/part_002 lines 106 to 117), the single-URL variant present in
the provided sources: it clears the pathname, prefixes the subdomain onto the
environment API host, and overrides the host with the short domain only when
`useLegacyDomain` is disabled and the build is Production. -/
def AltOriginManager.getCanonicalSubscriptionUrl (config : AppConfig)
    (buildEnv : BuildEnvironmentKind) : SimpleURL :=
  let url := SdkEnvironment.getOneSignalApiUrl buildEnv
  let url := { url with pathname := "" }
  let url := { url with host := config.subdomain ++ "." ++ url.host }
  if config.useLegacyDomain = false ∧ buildEnv = BuildEnvironmentKind.Production then
    { url with host := config.subdomain ++ ".os.tc" }
  else
    url

/-- Modelled from the spec: `AltOriginManager.getCanonicalSubscriptionUrls`,
the ordered candidate list builder, is called by
test/unit/managers/AltOriginManager.ts but its implementation is not among
the provided source files. Per the spec, the ordered candidate list is a
legacy-domain candidate with host `{subdomain}.{environment-api-host}` when
`useLegacyDomain` is enabled, followed by the short-domain candidate
`{subdomain}.os.tc`, always present as the final fallback; only the
environment-specific host and port vary by build environment (the unit test
expects the short-domain candidate to carry port 3001 in Development). -/
def AltOriginManager.getCanonicalSubscriptionUrls (config : AppConfig)
    (buildEnv : BuildEnvironmentKind) : List SimpleURL :=
  let legacyCandidates :=
    if config.useLegacyDomain then
      [{ host := config.subdomain ++ "." ++ (SdkEnvironment.getOneSignalApiUrl buildEnv).host,
         pathname := "" : SimpleURL }]
    else
      []
  let shortDomainHost :=
    config.subdomain ++ ".os.tc" ++
      (if buildEnv = BuildEnvironmentKind.Development then ":3001" else "")
  legacyCandidates ++ [{ host := shortDomainHost, pathname := "" }]

/-! ## Alternate-origin discovery (AltOriginManager.discoverAltOrigin) -/

/-- One candidate origin together with the settled outcome of its
`isSubscribed()` probe: `some true` or `some false` for a reply, `none` when
the probe failed or timed out. -/
structure CandidateProbe where
  host : String
  subscribed : Option Bool
deriving DecidableEq

/-- Modelled from the spec: `AltOriginManager.discoverAltOrigin` is exercised
by test/unit/managers/AltOriginManager.ts but its implementation is not among
the provided source files. Per the spec, once all probes over the ordered
candidate list have settled: a candidate reporting subscribed true wins, with
the lowest index in configured order winning when several report true, and
when none report true (including failures and timeouts) the final fallback
candidate, the last of the configured order, wins by default. -/
def AltOriginManager.resolveDiscovery (candidates : List CandidateProbe) :
    Option CandidateProbe :=
  match candidates.find? (fun c => decide (c.subscribed = some true)) with
  | some winner => some winner
  | none => candidates.getLast?

/-! ## ProxyFrameHost load and timeout (src/unnamed/part_000) -/

/-- Shallow embedding of `ProxyFrameHost.LOAD_TIMEOUT_MS`
(src/unnamed/part_000 lines 33 to 35). -/
def ProxyFrameHost.LOAD_TIMEOUT_MS : Nat := 15000

/-- The observable settlement state of a promise. -/
inductive PromiseState
  | pending
  | resolved
  | rejectedTimeout
deriving DecidableEq

/-- The observable outcome of one `ProxyFrameHost.load()` call, observed just
after the load timer has fired. -/
structure LoadOutcome where
  returnedFuture : PromiseState
  timeoutWarningLogged : Bool
  frameAttached : Bool
deriving DecidableEq

/-- Shallow embedding of `ProxyFrameHost.load` (src/unnamed/part_000 lines 52
to 81) as a function of whether the internal load promise resolver fired
within LOAD_TIMEOUT_MS. The code races
`timeoutPromise(this.loadPromise.promise, LOAD_TIMEOUT_MS)` and, in the catch
handler of that race, only logs a console warning; the value returned to the
caller is `this.loadPromise.promise` itself, so when the resolver has not
fired the returned future is still pending after the timer elapses, and the
iframe appended by `load` is never detached on timeout. -/
def ProxyFrameHost.loadOutcome (resolverFiredWithinTimeout : Bool) : LoadOutcome :=
  if resolverFiredWithinTimeout then
    { returnedFuture := PromiseState.resolved
      timeoutWarningLogged := false
      frameAttached := true }
  else
    { returnedFuture := PromiseState.pending
      timeoutWarningLogged := true
      frameAttached := true }

/-! ## ProxyFrameHost frame replacement (src/unnamed/part_000) -/

/-- An iframe element attached to the document, identified by its `src` URL
and a distinguishing element identity. -/
structure IFrameElement where
  src : String
  elemId : Nat
deriving DecidableEq

/-- Shallow embedding of `ProxyFrameHost.removeFrame` (src/unnamed/part_000
lines 83 to 88): `document.querySelector` finds the first attached iframe
whose `src` equals the URL of this host, and removes it when present. -/
def ProxyFrameHost.removeFrame (url : String) (dom : List IFrameElement) :
    List IFrameElement :=
  dom.eraseP (fun f => decide (f.src = url))

/-- Shallow embedding of the DOM effect of `ProxyFrameHost.load`
(src/unnamed/part_000 lines 52 to 81): it first calls `removeFrame()` and
only then creates the new iframe and appends it to `document.body`. -/
def ProxyFrameHost.loadDom (url : String) (newId : Nat)
    (dom : List IFrameElement) : List IFrameElement :=
  ProxyFrameHost.removeFrame url dom ++ [{ src := url, elemId := newId }]

/-! ## Message channel (Postmam), modelled from the spec -/

/-- A serializable message payload, reduced to the shapes the embedded
handlers produce and consume. -/
inductive Payload
  | null
  | bool (b : Bool)
  | str (s : String)
deriving DecidableEq

/-- The message envelope, from the data model of the spec: correlation id,
command name, payload, and the origin the transport reports for the
sender. -/
structure Envelope where
  correlationId : Nat
  command : String
  payload : Payload
  claimedOrigin : String
deriving DecidableEq

/-- A pending reply slot owned by the sending channel, keyed by correlation
id. -/
structure PendingReply where
  correlationId : Nat
deriving DecidableEq

/-- A channel bound to exactly one trusted remote origin, owning its pending
replies. -/
structure Channel where
  remoteOrigin : String
  pendingReplies : List PendingReply
deriving DecidableEq

/-- What the channel did with one inbound message. -/
inductive InboundAction
  | droppedSilently
  | fulfilledReply (correlationId : Nat)
  | dispatchedCommand (command : String)
deriving DecidableEq

/-- Modelled from the spec: the Postmam channel implementation is not among
the provided source files (only its callers are). Per the spec, inbound
dispatch first verifies the claimed origin against the configured remote
origin and drops mismatches silently, with no handler run and no error
raised; then, if the correlation id matches a live PendingReply, fulfills it
(removing it) and stops, so replies never reach the command registry;
otherwise it dispatches by command name. -/
def Channel.onInboundMessage (ch : Channel) (e : Envelope) :
    Channel × InboundAction :=
  if e.claimedOrigin ≠ ch.remoteOrigin then
    (ch, InboundAction.droppedSilently)
  else if ch.pendingReplies.any (fun pr => decide (pr.correlationId = e.correlationId)) then
    ({ ch with
        pendingReplies :=
          ch.pendingReplies.filter (fun pr => decide (pr.correlationId ≠ e.correlationId)) },
      InboundAction.fulfilledReply e.correlationId)
  else
    (ch, InboundAction.dispatchedCommand e.command)

/-! ## IS_SUBSCRIBED command (src/unnamed/part_000 and part_001) -/

/-- The IS_SUBSCRIBED command name constant of OneSignal.POSTMAM_COMMANDS.
The constants table is defined outside the provided source files; only the
identity of the token matters here. -/
def PostmamCommands.IS_SUBSCRIBED : String := "IS_SUBSCRIBED"

/-- An outbound request as handed to `messenger.message`. -/
structure OutboundRequest where
  command : String
  payload : Payload
  expectsReply : Bool
deriving DecidableEq

/-- Shallow embedding of the request side of `ProxyFrameHost.isSubscribed`
(src/unnamed/part_000 lines 171 to 177): it sends the IS_SUBSCRIBED command
with a null payload and registers a reply callback. -/
def ProxyFrameHost.isSubscribedRequest : OutboundRequest :=
  { command := PostmamCommands.IS_SUBSCRIBED
    payload := Payload.null
    expectsReply := true }

/-- Shallow embedding of the reply callback of `ProxyFrameHost.isSubscribed`
(src/unnamed/part_000 line 174): the returned promise resolves with the raw
reply data. -/
def ProxyFrameHost.isSubscribedResolve (replyData : Payload) : Payload :=
  replyData

/-- Shallow embedding of `ProxyFrame.onIsSubscribed` (src/unnamed/part_001
lines 198 to 202): the handler replies with the current push-subscription
state, the awaited result of `OneSignal.isPushNotificationsEnabled()`, as a
boolean. -/
def ProxyFrame.onIsSubscribed (pushNotificationsEnabled : Bool) : Payload :=
  Payload.bool pushNotificationsEnabled

/-- The host-to-frame round trip of the IS_SUBSCRIBED command: the frame
handler produces the reply payload and the host resolver consumes it. -/
def isSubscribedRoundtrip (pushNotificationsEnabled : Bool) : Payload :=
  ProxyFrameHost.isSubscribedResolve (ProxyFrame.onIsSubscribed pushNotificationsEnabled)

/-! ## REMOTE_DATABASE_GET handler (src/unnamed/part_001) -/

/-- One retrieval request of the REMOTE_DATABASE_GET payload: a table name
and a key. -/
structure DatabaseRetrieval where
  table : String
  key : String
deriving DecidableEq

/-- Shallow embedding of `ProxyFrame.onRemoteDatabaseGet`
(src/unnamed/part_001 lines 114 to 126): for each retrieval, in payload
order, it starts `Database.get(table, key)`; `Promise.all` preserves the
positional order of its inputs, and the handler replies with that results
list. The key-value store is the injected collaborator `databaseGet`. -/
def ProxyFrame.onRemoteDatabaseGet (databaseGet : String → String → Payload)
    (retrievals : List DatabaseRetrieval) : List Payload :=
  retrievals.map (fun r => databaseGet r.table r.key)

/-! ## Environment classifier (src/managers/SdkEnvironment.ts) -/

/-- The closed role set of src/models/WindowEnvironmentKind as used by
`SdkEnvironment.getWindowEnv`. -/
inductive WindowEnvironmentKind
  | ServiceWorker
  | Host
  | OneSignalSubscriptionPopup
  | OneSignalProxyFrame
  | CustomIframe
  | Unknown
deriving DecidableEq

/-- Substring containment, the embedding of the JavaScript index-of test
against -1: `s.splitOn pattern` has more than one part exactly when the
(nonempty) pattern occurs in `s`. -/
def strContainsSubstr (s pattern : String) : Bool :=
  decide ((s.splitOn pattern).length ≠ 1)

/-- The addressable identity of the current execution context, the inputs
`SdkEnvironment.getWindowEnv` reads: whether a window object exists, whether
a service-worker registration is present on self, whether the window is the
top-most window, and the location components together with the build
environment. -/
structure ExecutionContext where
  hasWindow : Bool
  hasSelfRegistration : Bool
  windowIsTop : Bool
  locationHref : String
  locationPathname : String
  locationSearch : String
  locationHostname : String
  buildEnv : BuildEnvironmentKind
deriving DecidableEq

/-- Shallow embedding of `SdkEnvironment.getWindowEnv`
(src/managers/SdkEnvironment.ts lines 25 to 59). The popup condition keeps
the JavaScript operator precedence of the source:
`A || (B && C) && D` groups as `A || ((B && C) && D)`. -/
def SdkEnvironment.getWindowEnv (ctx : ExecutionContext) : WindowEnvironmentKind :=
  if ctx.hasWindow = false then
    if ctx.hasSelfRegistration = true then
      WindowEnvironmentKind.ServiceWorker
    else
      WindowEnvironmentKind.Unknown
  else
    if ctx.windowIsTop = true then
      if strContainsSubstr ctx.locationHref "initOneSignal" = true ∨
          ((ctx.locationPathname = "/subscribe" ∧ ctx.locationSearch = "") ∧
            (ctx.locationHostname.endsWith ".onesignal.com" = true ∨
              ctx.locationHostname.endsWith ".os.tc" = true ∨
              (strContainsSubstr ctx.locationHostname ".localhost" = true ∧
                ctx.buildEnv = BuildEnvironmentKind.Development))) then
        WindowEnvironmentKind.OneSignalSubscriptionPopup
      else
        WindowEnvironmentKind.Host
    else
      if ctx.locationPathname = "/webPushIframe" ∨ ctx.locationPathname = "/webPushModal" then
        WindowEnvironmentKind.OneSignalProxyFrame
      else
        WindowEnvironmentKind.CustomIframe

/-! ## ProxyFrameHost dispose (src/unnamed/part_000) -/

/-- The Postmam messenger as seen by dispose: only its destroyed flag
matters here. -/
structure Messenger where
  destroyed : Bool
deriving DecidableEq

/-- The destroy call on a live messenger. -/
def Messenger.destroy (m : Messenger) : Messenger :=
  { m with destroyed := true }

/-- The state of a ProxyFrameHost instance relevant to dispose: the
`messenger` field is only assigned inside `establishCrossOriginMessaging`,
which runs from the frame load event, so it is undefined (`none`) when
`load()` was never called or the load event never fired. -/
structure ProxyFrameHostState where
  messenger : Option Messenger
  frameAttached : Bool
deriving DecidableEq

/-- Outcome of a JavaScript call: a normal return, or a thrown TypeError from
invoking a method on an undefined value. -/
inductive JsOutcome (α : Type)
  | ok (value : α)
  | typeErrorUndefined
deriving DecidableEq

/-- Shallow embedding of `ProxyFrameHost.dispose` (src/unnamed/part_000 lines
109 to 113): it unconditionally invokes `this.messenger.destroy()` and then
`this.removeFrame()`. When the messenger was never assigned, the method
access on the undefined messenger throws a TypeError before the frame is
removed. -/
def ProxyFrameHost.dispose (s : ProxyFrameHostState) : JsOutcome ProxyFrameHostState :=
  match s.messenger with
  | none => JsOutcome.typeErrorUndefined
  | some m =>
    JsOutcome.ok { s with messenger := some m.destroy, frameAttached := false }

/-! ## Helper lemmas -/

/-- Erasing the first match from a list with at most one match leaves a list
with no match. -/
theorem countP_eraseP_of_le_one {α : Type} (p : α → Bool) (l : List α)
    (h : l.countP p ≤ 1) : (l.eraseP p).countP p = 0 := by
  induction l with
  | nil => simp
  | cons a t ih =>
    by_cases hpa : p a = true
    · rw [List.eraseP_cons_of_pos hpa]
      rw [List.countP_cons_of_pos _ _ hpa] at h
      omega
    · rw [List.eraseP_cons_of_neg (by simpa using hpa)]
      rw [List.countP_cons_of_neg _ _ (by simpa using hpa)] at h
      rw [List.countP_cons_of_neg _ _ (by simpa using hpa)]
      exact ih h

/-- A matching element is gone after erasing the first match from a list
with at most one match. -/
theorem not_mem_eraseP_of_countP_le_one {α : Type} (p : α → Bool) (l : List α)
    (h : l.countP p ≤ 1) (a : α) (hpa : p a = true) : a ∉ l.eraseP p := by
  intro hmem
  have h0 := countP_eraseP_of_le_one p l h
  have hpos : 0 < (l.eraseP p).countP p := List.countP_pos_iff.mpr ⟨a, hmem, hpa⟩
  omega

/-- find? returns the element at the first index whose predicate holds. -/
theorem find_first_true {α : Type} (p : α → Bool) (l : List α) :
    ∀ (i : Nat) (hi : i < l.length),
      p (l.get ⟨i, hi⟩) = true →
      (∀ (k : Nat) (hk : k < l.length), k < i → ¬ p (l.get ⟨k, hk⟩) = true) →
      l.find? p = some (l.get ⟨i, hi⟩) := by
  induction l with
  | nil => intro i hi; simp at hi
  | cons a t ih =>
    intro i hi htrue hmin
    cases i with
    | zero =>
      simp only [List.get] at htrue
      rw [List.find?_cons_of_pos _ htrue]
      rfl
    | succ j =>
      have hpa : ¬ p a = true := by
        have := hmin 0 (by simp) (Nat.succ_pos j)
        simpa [List.get] using this
      rw [List.find?_cons_of_neg _ hpa]
      have hj : j < t.length := by
        simpa [Nat.succ_lt_succ_iff] using hi
      have hstep := ih j hj (by simpa [List.get] using htrue) ?_
      · simpa [List.get] using hstep
      · intro k hk hkj
        have := hmin (k + 1) (by simpa [Nat.succ_lt_succ_iff] using hk)
          (Nat.succ_lt_succ hkj)
        simpa [List.get] using this

/-! ## Claim theorems -/

/-- Claim C1: for every configuration and build environment, the candidate
derivation yields the legacy-domain candidate `{subdomain}.{environment-api-host}`
exactly when `useLegacyDomain` is enabled, followed by the short-domain
candidate `{subdomain}.os.tc` (with the development port in Development)
always present as the final fallback; the number and order of candidates
depend only on `useLegacyDomain`, never on the build environment, and on the
concrete inputs of the unit test the hosts are exactly the expected ones. -/
theorem candidate_urls_structure (config : AppConfig) (buildEnv : BuildEnvironmentKind) :
    (AltOriginManager.getCanonicalSubscriptionUrls config buildEnv).length =
      (if config.useLegacyDomain then 2 else 1) ∧
    (AltOriginManager.getCanonicalSubscriptionUrls config buildEnv).map SimpleURL.host =
      (if config.useLegacyDomain then
        [config.subdomain ++ "." ++ (SdkEnvironment.getOneSignalApiUrl buildEnv).host]
      else
        []) ++
        [config.subdomain ++ ".os.tc" ++
          (if buildEnv = BuildEnvironmentKind.Development then ":3001" else "")] ∧
    (AltOriginManager.getCanonicalSubscriptionUrls config buildEnv).getLast?.map SimpleURL.host =
      some (config.subdomain ++ ".os.tc" ++
        (if buildEnv = BuildEnvironmentKind.Development then ":3001" else "")) ∧
    (AltOriginManager.getCanonicalSubscriptionUrls
        { subdomain := "test", useLegacyDomain := true }
        BuildEnvironmentKind.Development).map SimpleURL.host =
      ["test.localhost:3001", "test.os.tc:3001"] ∧
    (AltOriginManager.getCanonicalSubscriptionUrls
        { subdomain := "test", useLegacyDomain := true }
        BuildEnvironmentKind.Staging).map SimpleURL.host =
      ["test.onesignal-staging.pw", "test.os.tc"] ∧
    (AltOriginManager.getCanonicalSubscriptionUrls
        { subdomain := "test", useLegacyDomain := true }
        BuildEnvironmentKind.Production).map SimpleURL.host =
      ["test.onesignal.com", "test.os.tc"] ∧
    (AltOriginManager.getCanonicalSubscriptionUrls
        { subdomain := "test", useLegacyDomain := false }
        BuildEnvironmentKind.Development).map SimpleURL.host = ["test.os.tc:3001"] ∧
    (AltOriginManager.getCanonicalSubscriptionUrls
        { subdomain := "test", useLegacyDomain := false }
        BuildEnvironmentKind.Staging).map SimpleURL.host = ["test.os.tc"] ∧
    (AltOriginManager.getCanonicalSubscriptionUrls
        { subdomain := "test", useLegacyDomain := false }
        BuildEnvironmentKind.Production).map SimpleURL.host = ["test.os.tc"] := by
  obtain ⟨s, lg⟩ := config
  refine ⟨?_, ?_, ?_, by decide, by decide, by decide, by decide, by decide, by decide⟩ <;>
    cases lg <;> cases buildEnv <;>
      simp [AltOriginManager.getCanonicalSubscriptionUrls, SdkEnvironment.getOneSignalApiUrl]

/-- Claim C2: once all probes over the ordered candidate list have settled,
the candidate at the first index reporting subscribed true wins (so with
several true the lowest index wins); when no candidate reports true,
including failures and timeouts, the final fallback candidate wins; and with
both of [acme.onesignal.com, acme.os.tc] subscribed, the winner host is
acme.onesignal.com. -/
theorem discovery_resolution (cs : List CandidateProbe) :
    (∀ (i : Nat) (hi : i < cs.length),
        (cs.get ⟨i, hi⟩).subscribed = some true →
        (∀ (k : Nat) (hk : k < cs.length), k < i →
          ¬ (cs.get ⟨k, hk⟩).subscribed = some true) →
        AltOriginManager.resolveDiscovery cs = some (cs.get ⟨i, hi⟩)) ∧
    ((∀ c ∈ cs, ¬ c.subscribed = some true) →
        AltOriginManager.resolveDiscovery cs = cs.getLast?) ∧
    (AltOriginManager.resolveDiscovery
        [{ host := "acme.onesignal.com", subscribed := some true },
          { host := "acme.os.tc", subscribed := some true }]).map CandidateProbe.host =
      some "acme.onesignal.com" := by
  refine ⟨?_, ?_, by decide⟩
  · intro i hi htrue hmin
    have hfind := find_first_true (fun c => decide (c.subscribed = some true)) cs i hi
      (by simpa using htrue) (fun k hk hki => by simpa using hmin k hk hki)
    unfold AltOriginManager.resolveDiscovery
    rw [hfind]
  · intro hnone
    have hfind : cs.find? (fun c => decide (c.subscribed = some true)) = none := by
      rw [List.find?_eq_none]
      intro x hx
      simpa using hnone x hx
    unfold AltOriginManager.resolveDiscovery
    rw [hfind]

/-- Witness for claim C2: the resolution theorem applied to the two concrete
scenarios of the unit tests, both candidates subscribed (priority 0 wins) and
no candidate subscribed (the fallback wins). -/
theorem discovery_resolution_witness :
    AltOriginManager.resolveDiscovery
        [{ host := "acme.onesignal.com", subscribed := some true },
          { host := "acme.os.tc", subscribed := some true }] =
      some { host := "acme.onesignal.com", subscribed := some true } ∧
    AltOriginManager.resolveDiscovery
        [{ host := "acme.onesignal.com", subscribed := some false },
          { host := "acme.os.tc", subscribed := none }] =
      some { host := "acme.os.tc", subscribed := none } := by
  constructor
  · have h := (discovery_resolution
      [{ host := "acme.onesignal.com", subscribed := some true },
        { host := "acme.os.tc", subscribed := some true }]).1 0 (by decide) (by decide)
      (fun k hk hki => absurd hki (Nat.not_lt_zero k))
    simpa using h
  · have h := (discovery_resolution
      [{ host := "acme.onesignal.com", subscribed := some false },
        { host := "acme.os.tc", subscribed := none }]).2.1 (by decide)
    simpa using h

/-- Claim C3, recorded against the code: `load()` starts a 15000 ms timer,
and when the internal load resolver has not fired within the timeout the
iframe stays attached (the load is not aborted), but contrary to the claim
and to the doc comment of `load` itself, the future returned by `load()`
does not settle with a Timeout error: the timeout race is caught and only a
console warning is logged, leaving the returned future pending. -/
theorem load_timeout_only_warns :
    ProxyFrameHost.LOAD_TIMEOUT_MS = 15000 ∧
    (ProxyFrameHost.loadOutcome false).frameAttached = true ∧
    (ProxyFrameHost.loadOutcome false).timeoutWarningLogged = true ∧
    (ProxyFrameHost.loadOutcome false).returnedFuture = PromiseState.pending ∧
    ¬ (ProxyFrameHost.loadOutcome false).returnedFuture = PromiseState.rejectedTimeout := by
  decide

/-- Claim C4: when at most one attached iframe for the target URL exists,
`load()` first removes the existing frame and only then appends the new one,
so afterwards exactly one frame for that URL is attached and any previously
existing frame for that URL is gone. -/
theorem load_single_controller_per_origin (url : String) (newId : Nat)
    (dom : List IFrameElement)
    (hcount : dom.countP (fun f => decide (f.src = url)) ≤ 1) :
    (ProxyFrameHost.loadDom url newId dom).countP (fun f => decide (f.src = url)) = 1 ∧
    ∀ old ∈ dom, old.src = url → ¬ old.elemId = newId →
      old ∉ ProxyFrameHost.loadDom url newId dom := by
  constructor
  · unfold ProxyFrameHost.loadDom ProxyFrameHost.removeFrame
    rw [List.countP_append]
    rw [countP_eraseP_of_le_one _ _ hcount]
    simp
  · intro old hold hsrc hid hmem
    have hmem2 : old ∈ ProxyFrameHost.removeFrame url dom ++
        [{ src := url, elemId := newId }] := hmem
    rcases List.mem_append.mp hmem2 with h1 | h2
    · have h1b : old ∈ dom.eraseP (fun f => decide (f.src = url)) := h1
      have hpa : (fun f => decide (f.src = url)) old = true := by simp [hsrc]
      exact not_mem_eraseP_of_countP_le_one (fun f => decide (f.src = url)) dom hcount old
        hpa h1b
    · have heq : old = { src := url, elemId := newId } := by simpa using h2
      exact hid (by rw [heq])

/-- Witness for claim C4: loading over a DOM holding one frame for the
target URL and one for another origin leaves exactly one frame for the
target URL, and the old frame is detached. -/
theorem load_single_controller_witness :
    (ProxyFrameHost.loadDom "https://acme.os.tc/webPushIframe" 3
        [{ src := "https://acme.os.tc/webPushIframe", elemId := 1 },
          { src := "https://acme.onesignal.com/webPushIframe", elemId := 2 }]).countP
        (fun f => decide (f.src = "https://acme.os.tc/webPushIframe")) = 1 ∧
    ({ src := "https://acme.os.tc/webPushIframe", elemId := 1 } : IFrameElement) ∉
      ProxyFrameHost.loadDom "https://acme.os.tc/webPushIframe" 3
        [{ src := "https://acme.os.tc/webPushIframe", elemId := 1 },
          { src := "https://acme.onesignal.com/webPushIframe", elemId := 2 }] := by
  have h := load_single_controller_per_origin "https://acme.os.tc/webPushIframe" 3
    [{ src := "https://acme.os.tc/webPushIframe", elemId := 1 },
      { src := "https://acme.onesignal.com/webPushIframe", elemId := 2 }] (by decide)
  exact ⟨h.1, h.2 { src := "https://acme.os.tc/webPushIframe", elemId := 1 }
    (by decide) (by decide) (by decide)⟩

/-- Claim C5: an inbound message whose claimed origin differs from the
configured remote origin is dropped silently: the channel state is
unchanged, no handler runs, no error is raised, and in particular a
correlation id matching a live PendingReply never fulfills that
PendingReply from a non-matching origin. -/
theorem origin_mismatch_dropped (ch : Channel) (e : Envelope)
    (h : ¬ e.claimedOrigin = ch.remoteOrigin) :
    Channel.onInboundMessage ch e = (ch, InboundAction.droppedSilently) ∧
    (Channel.onInboundMessage ch e).1.pendingReplies = ch.pendingReplies ∧
    ∀ pr ∈ ch.pendingReplies, pr.correlationId = e.correlationId →
      ¬ (Channel.onInboundMessage ch e).2 = InboundAction.fulfilledReply pr.correlationId := by
  have hmsg : Channel.onInboundMessage ch e = (ch, InboundAction.droppedSilently) := by
    unfold Channel.onInboundMessage
    rw [if_pos h]
  refine ⟨hmsg, by rw [hmsg], ?_⟩
  intro pr hpr hid
  rw [hmsg]
  simp

/-- Witness for claim C5: a message from a hostile origin carrying the
correlation id of the live PendingReply is dropped with the channel state
intact. -/
theorem origin_mismatch_dropped_witness :
    Channel.onInboundMessage
        { remoteOrigin := "https://acme.os.tc", pendingReplies := [{ correlationId := 7 }] }
        { correlationId := 7, command := "reply", payload := Payload.null,
          claimedOrigin := "https://evil.example" } =
      ({ remoteOrigin := "https://acme.os.tc", pendingReplies := [{ correlationId := 7 }] },
        InboundAction.droppedSilently) :=
  (origin_mismatch_dropped
    { remoteOrigin := "https://acme.os.tc", pendingReplies := [{ correlationId := 7 }] }
    { correlationId := 7, command := "reply", payload := Payload.null,
      claimedOrigin := "https://evil.example" } (by decide)).1

/-- Claim C6: `isSubscribed()` sends the IS_SUBSCRIBED command with a null
payload expecting a reply, resolves with the raw boolean reply payload, and
the frame-side handler replies exactly with the current push-subscription
state, so the round trip is the identity on the subscription boolean. -/
theorem isSubscribed_roundtrip_boolean :
    ProxyFrameHost.isSubscribedRequest.command = PostmamCommands.IS_SUBSCRIBED ∧
    ProxyFrameHost.isSubscribedRequest.payload = Payload.null ∧
    ProxyFrameHost.isSubscribedRequest.expectsReply = true ∧
    ∀ b : Bool, isSubscribedRoundtrip b = Payload.bool b := by
  exact ⟨rfl, rfl, rfl, fun b => rfl⟩

/-- Claim C7: the REMOTE_DATABASE_GET handler replies with a list of the
same length as the retrieval list, positionally aligned: the reply at every
index is the store lookup for the table and key of the request at that
index. -/
theorem remote_database_get_aligned (databaseGet : String → String → Payload)
    (retrievals : List DatabaseRetrieval) :
    (ProxyFrame.onRemoteDatabaseGet databaseGet retrievals).length = retrievals.length ∧
    ∀ i : Nat, (ProxyFrame.onRemoteDatabaseGet databaseGet retrievals)[i]? =
      retrievals[i]?.map (fun r => databaseGet r.table r.key) := by
  constructor
  · simp [ProxyFrame.onRemoteDatabaseGet]
  · intro i
    simp [ProxyFrame.onRemoteDatabaseGet]

/-- Claim C8: the environment classifier is a pure total function of the
execution context identity into the closed six-role set, and two calls
under the same context identity return the same role. -/
theorem window_env_pure_total_closed (ctx ctx2 : ExecutionContext) (h : ctx2 = ctx) :
    (SdkEnvironment.getWindowEnv ctx = WindowEnvironmentKind.ServiceWorker ∨
      SdkEnvironment.getWindowEnv ctx = WindowEnvironmentKind.Host ∨
      SdkEnvironment.getWindowEnv ctx = WindowEnvironmentKind.OneSignalSubscriptionPopup ∨
      SdkEnvironment.getWindowEnv ctx = WindowEnvironmentKind.OneSignalProxyFrame ∨
      SdkEnvironment.getWindowEnv ctx = WindowEnvironmentKind.CustomIframe ∨
      SdkEnvironment.getWindowEnv ctx = WindowEnvironmentKind.Unknown) ∧
    SdkEnvironment.getWindowEnv ctx2 = SdkEnvironment.getWindowEnv ctx := by
  subst h
  refine ⟨?_, rfl⟩
  cases henv : SdkEnvironment.getWindowEnv ctx2 <;> simp

/-- Witness for claim C8: the classifier theorem applied to a concrete
service-worker context, with the same-identity hypothesis discharged by
rfl. -/
theorem window_env_pure_witness :
    (SdkEnvironment.getWindowEnv
        { hasWindow := false, hasSelfRegistration := true, windowIsTop := false,
          locationHref := "", locationPathname := "", locationSearch := "",
          locationHostname := "", buildEnv := BuildEnvironmentKind.Production } =
        WindowEnvironmentKind.ServiceWorker ∨
      SdkEnvironment.getWindowEnv
        { hasWindow := false, hasSelfRegistration := true, windowIsTop := false,
          locationHref := "", locationPathname := "", locationSearch := "",
          locationHostname := "", buildEnv := BuildEnvironmentKind.Production } =
        WindowEnvironmentKind.Host ∨
      SdkEnvironment.getWindowEnv
        { hasWindow := false, hasSelfRegistration := true, windowIsTop := false,
          locationHref := "", locationPathname := "", locationSearch := "",
          locationHostname := "", buildEnv := BuildEnvironmentKind.Production } =
        WindowEnvironmentKind.OneSignalSubscriptionPopup ∨
      SdkEnvironment.getWindowEnv
        { hasWindow := false, hasSelfRegistration := true, windowIsTop := false,
          locationHref := "", locationPathname := "", locationSearch := "",
          locationHostname := "", buildEnv := BuildEnvironmentKind.Production } =
        WindowEnvironmentKind.OneSignalProxyFrame ∨
      SdkEnvironment.getWindowEnv
        { hasWindow := false, hasSelfRegistration := true, windowIsTop := false,
          locationHref := "", locationPathname := "", locationSearch := "",
          locationHostname := "", buildEnv := BuildEnvironmentKind.Production } =
        WindowEnvironmentKind.CustomIframe ∨
      SdkEnvironment.getWindowEnv
        { hasWindow := false, hasSelfRegistration := true, windowIsTop := false,
          locationHref := "", locationPathname := "", locationSearch := "",
          locationHostname := "", buildEnv := BuildEnvironmentKind.Production } =
        WindowEnvironmentKind.Unknown) ∧
    SdkEnvironment.getWindowEnv
        { hasWindow := false, hasSelfRegistration := true, windowIsTop := false,
          locationHref := "", locationPathname := "", locationSearch := "",
          locationHostname := "", buildEnv := BuildEnvironmentKind.Production } =
      SdkEnvironment.getWindowEnv
        { hasWindow := false, hasSelfRegistration := true, windowIsTop := false,
          locationHref := "", locationPathname := "", locationSearch := "",
          locationHostname := "", buildEnv := BuildEnvironmentKind.Production } :=
  window_env_pure_total_closed
    { hasWindow := false, hasSelfRegistration := true, windowIsTop := false,
      locationHref := "", locationPathname := "", locationSearch := "",
      locationHostname := "", buildEnv := BuildEnvironmentKind.Production }
    { hasWindow := false, hasSelfRegistration := true, windowIsTop := false,
      locationHref := "", locationPathname := "", locationSearch := "",
      locationHostname := "", buildEnv := BuildEnvironmentKind.Production }
    rfl

/-- Claim C9: in a context with a window, a top-most window classifies only
as Host or OneSignalSubscriptionPopup, and a non-top-most window only as
OneSignalProxyFrame or CustomIframe. -/
theorem window_env_top_split (ctx : ExecutionContext) (hw : ctx.hasWindow = true) :
    (ctx.windowIsTop = true →
      (SdkEnvironment.getWindowEnv ctx = WindowEnvironmentKind.Host ∨
        SdkEnvironment.getWindowEnv ctx = WindowEnvironmentKind.OneSignalSubscriptionPopup)) ∧
    (ctx.windowIsTop = false →
      (SdkEnvironment.getWindowEnv ctx = WindowEnvironmentKind.OneSignalProxyFrame ∨
        SdkEnvironment.getWindowEnv ctx = WindowEnvironmentKind.CustomIframe)) := by
  constructor <;> intro ht <;>
    simp only [SdkEnvironment.getWindowEnv, hw, ht] <;>
    split_ifs <;> simp_all

/-- Witness for claim C9: the split theorem applied to a concrete top-most
host-page context. -/
theorem window_env_top_split_witness :
    SdkEnvironment.getWindowEnv
        { hasWindow := true, hasSelfRegistration := false, windowIsTop := true,
          locationHref := "https://example.com/", locationPathname := "/",
          locationSearch := "", locationHostname := "example.com",
          buildEnv := BuildEnvironmentKind.Production } =
      WindowEnvironmentKind.Host ∨
    SdkEnvironment.getWindowEnv
        { hasWindow := true, hasSelfRegistration := false, windowIsTop := true,
          locationHref := "https://example.com/", locationPathname := "/",
          locationSearch := "", locationHostname := "example.com",
          buildEnv := BuildEnvironmentKind.Production } =
      WindowEnvironmentKind.OneSignalSubscriptionPopup :=
  (window_env_top_split
    { hasWindow := true, hasSelfRegistration := false, windowIsTop := true,
      locationHref := "https://example.com/", locationPathname := "/",
      locationSearch := "", locationHostname := "example.com",
      buildEnv := BuildEnvironmentKind.Production } rfl).1 rfl

/-- Claim C10: dispose on a ProxyFrameHost whose messenger was never
established throws a TypeError (the undefined messenger is dereferenced)
rather than acting as a no-op, while dispose with a live messenger returns
normally, destroying the messenger and detaching the frame. -/
theorem dispose_without_messenger_throws :
    (∀ attached : Bool,
        ProxyFrameHost.dispose { messenger := none, frameAttached := attached } =
          JsOutcome.typeErrorUndefined) ∧
    (∀ (attached : Bool) (m : Messenger),
        ProxyFrameHost.dispose { messenger := some m, frameAttached := attached } =
          JsOutcome.ok { messenger := some m.destroy, frameAttached := false }) := by
  exact ⟨fun _ => rfl, fun _ _ => rfl⟩

end OneSignalSDK
